import Mathlib

/-!
Shallow embedding of the session/authentication gate of the RLEGS form server
(src/server/app.py, src/server/config.py).

The Redis key-value store is modelled as an association list from keys to a
value together with an optional absolute expiry deadline (in seconds).  All
operations take the current time `now`; an entry whose deadline has passed is
treated as absent, matching Redis TTL semantics.  Flask request handlers are
modelled as pure functions from their request-relevant inputs and the store to
a response, the updated store, and (for the login handler) the number of
milliseconds slept.  Uncaught Python exceptions are modelled with `Except`.
-/

/-- Configuration read from the process environment (src/server/config.py).
Defaults follow `os.getenv` fallbacks: SESSION_TTL_SECONDS 1800,
HTTPS_COOKIES 0, API_RATE_LIMIT 8.  UNIVERSAL_KEY has no default (None). -/
structure Config where
  UNIVERSAL_KEY : Option String
  SESSION_TTL_SECONDS : Nat := 1800
  HTTPS_COOKIES : Nat := 0
  API_RATE_LIMIT : Nat := 8
deriving DecidableEq

/-- Key namespace for sessions (`SESS_PREFIX = "sess:"` in app.py). -/
def SESS_PRE : String := "sess:"

/-- Key namespace for rate-limit counters (`RL_PREFIX = "rl:"` in app.py). -/
def RL_PRE : String := "rl:"

/-- A Redis value: a string or an integer counter. -/
inductive RVal
  | str : String → RVal
  | int : Int → RVal
deriving DecidableEq

/-- The key-value store: key, value, optional absolute expiry deadline. -/
structure Redis where
  data : List (String × RVal × Option Nat)
deriving DecidableEq

def Redis.empty : Redis := ⟨[]⟩

/-- Is an entry with this deadline still alive at time `now`? -/
def liveAt (now : Nat) (dl : Option Nat) : Bool :=
  match dl with
  | none => true
  | some d => now < d

/-- Look up a key, ignoring logically expired entries (Redis lazy expiry). -/
def Redis.find (r : Redis) (now : Nat) (k : String) : Option (RVal × Option Nat) :=
  match r.data.find? (fun e => e.1 == k && liveAt now e.2.2) with
  | some e => some e.2
  | none => none

/-- Replace or create the entry for a key. -/
def Redis.setKey (r : Redis) (k : String) (v : RVal) (dl : Option Nat) : Redis :=
  ⟨(k, v, dl) :: r.data.filter (fun e => !(e.1 == k))⟩

/-- `SETEX key ttl value`. -/
def Redis.setex (r : Redis) (now : Nat) (k : String) (ttl : Nat) (v : RVal) : Redis :=
  r.setKey k v (some (now + ttl))

/-- `DEL key`. -/
def Redis.del (r : Redis) (k : String) : Redis :=
  ⟨r.data.filter (fun e => !(e.1 == k))⟩

/-- `EXISTS key` (result 0 or 1). -/
def Redis.existsKey (r : Redis) (now : Nat) (k : String) : Nat :=
  if (r.find now k).isSome then 1 else 0

/-- `INCR key`: create at 1 with no expiry, or increment keeping the current
expiry (Redis parses a stored string as an integer). -/
def Redis.incr (r : Redis) (now : Nat) (k : String) : Int × Redis :=
  match r.find now k with
  | some (.int n, dl) => (n + 1, r.setKey k (.int (n + 1)) dl)
  | some (.str s, dl) =>
      let n := s.toInt?.getD 0 + 1
      (n, r.setKey k (.int n) dl)
  | none => (1, r.setKey k (.int 1) none)

/-- `EXPIRE key t`: returns 1 and sets the deadline when the key exists. -/
def Redis.expire (r : Redis) (now : Nat) (k : String) (t : Nat) : Nat × Redis :=
  match r.find now k with
  | some (v, _) => (1, r.setKey k v (some (now + t)))
  | none => (0, r)

/-- `TTL key`: -2 when absent, -1 when no expiry, else remaining seconds. -/
def Redis.ttl (r : Redis) (now : Nat) (k : String) : Int :=
  match r.find now k with
  | none => -2
  | some (_, none) => -1
  | some (_, some d) => (d : Int) - (now : Int)

/-- Python truthiness of an optional string (None and "" are falsy). -/
def pyFalsy : Option String → Bool
  | none => true
  | some s => s == ""

/-- `x or "unknown"` applied to `request.remote_addr`. -/
def pyOrUnknown : Option String → String
  | none => "unknown"
  | some s => if s == "" then "unknown" else s

/-- A Set-Cookie emitted by a response. -/
structure SetCookie where
  name : String
  value : String
  maxAge : Nat
  httponly : Bool
  samesite : String
  secure : Bool
  path : String
deriving DecidableEq

/-- Response bodies, abstracted to the shapes the handlers produce. -/
inductive BodyV
  | page : String → BodyV
  | jsonError : String → BodyV
  | jsonOkTtl : Int → BodyV
  | jsonNotOk : BodyV
  | text : String → BodyV
  | jsonRow : List String → Bool → BodyV
  | redirectHtml : BodyV
deriving DecidableEq

/-- An HTTP response: status, body, optional Location, Set-Cookie list. -/
structure HResponse where
  status : Nat
  body : BodyV
  location : Option String := none
  cookies : List SetCookie := []
deriving DecidableEq

/-- Flask `redirect(loc)`: a 302 with a Location header. -/
def redirectResp (loc : String) : HResponse :=
  { status := 302, body := .redirectHtml, location := some loc }

/-- An uncaught Python exception: a werkzeug HTTPException (code and
description) or any other exception (message). -/
inductive Exc
  | httpExc : Nat → String → Exc
  | pyErr : String → Exc
deriving DecidableEq

/-- The exception the redis client raises when the store is unreachable. -/
def storeDown : Exc := .pyErr "redis.exceptions.ConnectionError"

/-- `session_set`: store the session id under the `sess:` prefix with value
"1" and the given TTL (app.py lines 42-43, called with SESSION_TTL_SECONDS). -/
def session_set (cfg : Config) (r : Redis) (now : Nat) (sid : String) : Redis :=
  r.setex now (SESS_PRE ++ sid) cfg.SESSION_TTL_SECONDS (.str "1")

/-- `session_valid`: false for a falsy id without touching the store, else
`EXISTS == 1` (app.py lines 45-48).  `avail` models store reachability: when
false, the store call raises. -/
def session_valid (avail : Bool) (r : Redis) (now : Nat) (sid : Option String) :
    Except Exc Bool :=
  if pyFalsy sid then .ok false
  else if avail then .ok (r.existsKey now (SESS_PRE ++ sid.getD "") == 1)
  else .error storeDown

/-- `session_ttl`: -2 for a falsy id without touching the store, else
`TTL sess:sid` (app.py lines 50-52). -/
def session_ttl (avail : Bool) (r : Redis) (now : Nat) (sid : Option String) :
    Except Exc Int :=
  if pyFalsy sid then .ok (-2)
  else if avail then .ok (r.ttl now (SESS_PRE ++ sid.getD ""))
  else .error storeDown

/-- `session_delete`: no-op for a falsy id, else `DEL` (app.py lines 54-57). -/
def session_delete (r : Redis) (sid : String) : Redis :=
  if sid == "" then r else r.del (SESS_PRE ++ sid)

/-- The rate-limit counter key for an ip (`f"{RL_PREFIX}login:{ip or 'unknown'}"`). -/
def rl_key (ip : String) : String :=
  RL_PRE ++ "login:" ++ (if ip == "" then "unknown" else ip)

/-- `rate_limit_login`: pipeline `INCR key; EXPIRE key 60`, allowed iff the
post-increment count is at most API_RATE_LIMIT (app.py lines 59-65).  The
pipeline is transactional, so the two commands act atomically at one time. -/
def rate_limit_login (cfg : Config) (r : Redis) (now : Nat) (ip : String) :
    Bool × Redis :=
  let key := rl_key ip
  let ir := r.incr now key
  let er := ir.2.expire now key 60
  (ir.1 ≤ (cfg.API_RATE_LIMIT : Int), er.2)

/-- `_consttime_eq`: `hmac.compare_digest(str(a or ""), str(b or ""))`,
functionally string equality (app.py line 68). -/
def consttime_eq (a b : String) : Bool := a == b

/-- `set_session_cookie` (app.py lines 70-78). -/
def mkSessionCookie (cfg : Config) (sid : String) : SetCookie :=
  { name := "auth_session", value := sid, maxAge := cfg.SESSION_TTL_SECONDS,
    httponly := true, samesite := "Lax", secure := cfg.HTTPS_COOKIES == 1,
    path := "/" }

/-- `clear_session_cookie`: Flask `delete_cookie` emits the cookie with an
empty value and max-age 0 on the same path (app.py lines 80-81). -/
def clearedSessionCookie : SetCookie :=
  { name := "auth_session", value := "", maxAge := 0, httponly := false,
    samesite := "", secure := false, path := "/" }

/-- The `require_session` decorator (app.py lines 83-93): on an invalid or
absent session, API-prefixed paths get a 401 JSON error and page routes a
redirect to /login; otherwise the wrapped handler's result is returned
unchanged. -/
def require_session (handler : Except Exc HResponse) (avail : Bool) (r : Redis)
    (now : Nat) (path : String) (cookie : Option String) : Except Exc HResponse :=
  match session_valid avail r now cookie with
  | .error e => .error e
  | .ok true => handler
  | .ok false =>
      if path.startsWith "/api/" then
        .ok { status := 401, body := .jsonError "unauthorized" }
      else
        .ok (redirectResp "/login")

/-- The login page response (`login_page`, app.py lines 96-97). -/
def loginPageResp : HResponse := { status := 200, body := .page "login.html" }

/-- The loading page response (`loading_page`, app.py lines 99-100). -/
def loadingPageResp : HResponse := { status := 200, body := .page "loading.html" }

/-- `GET /` (`root_decider`, app.py lines 102-107): branches only on the
cookie's truthiness and never consults the store. -/
def root_decider (cookie : Option String) : HResponse :=
  if pyFalsy cookie then loginPageResp else loadingPageResp

/-- `GET /auth/check` (`auth_check`, app.py lines 113-119). -/
def auth_check (avail : Bool) (r : Redis) (now : Nat) (cookie : Option String) :
    Except Exc HResponse :=
  match session_valid avail r now cookie with
  | .error e => .error e
  | .ok true =>
      match session_ttl avail r now cookie with
      | .error e => .error e
      | .ok t => .ok { status := 200, body := .jsonOkTtl t }
  | .ok false => .ok { status := 401, body := .jsonNotOk }

/-- `POST /auth/login` (`login`, app.py lines 121-136).  `newSid` stands for
the fresh `secrets.token_urlsafe(32)` value; the third component is the
number of milliseconds slept (`time.sleep(0.4)` on a bad key). -/
def login (cfg : Config) (r : Redis) (now : Nat) (remoteAddr : Option String)
    (key : String) (newSid : String) : HResponse × Redis × Nat :=
  let lim := rate_limit_login cfg r now (pyOrUnknown remoteAddr)
  if !lim.1 then
    ({ status := 429,
       body := .text "Terlalu banyak percobaan gagal. Coba lagi setelah sesaat." },
     lim.2, 0)
  else if !consttime_eq key (cfg.UNIVERSAL_KEY.getD "") then
    ({ status := 401, body := .text "Kode akses salah." }, lim.2, 400)
  else
    let r2 := session_set cfg lim.2 now newSid
    ({ redirectResp "/" with cookies := [mkSessionCookie cfg newSid] }, r2, 0)

/-- `POST /auth/logout` (`logout`, app.py lines 138-144). -/
def logout (r : Redis) (cookie : Option String) : HResponse × Redis :=
  let r1 := if pyFalsy cookie then r else session_delete r (cookie.getD "")
  ({ redirectResp "/" with cookies := [clearedSessionCookie] }, r1)

/-- The registered `@app.errorhandler(Exception)` (`on_error`, app.py lines
227-232): an HTTPException keeps its code and description; any other
exception becomes a generic JSON 500 that never includes the exception's
message. -/
def on_error : Exc → HResponse
  | .httpExc code desc => { status := code, body := .jsonError desc }
  | .pyErr _ => { status := 500, body := .jsonError "internal server error" }

/-- Flask request dispatch at the level of handlers that return responses:
an uncaught exception is routed to the registered error handler. -/
def wsgi_app (res : Except Exc HResponse) : HResponse :=
  match res with
  | .ok resp => resp
  | .error e => on_error e

/-- A Flask view's return value: a proper response, or (on the fallthrough
path of `drive_then_sheet`) the Flask application object itself, which is not
a valid response value. -/
inductive ViewValue
  | resp : HResponse → ViewValue
  | flaskApp : ViewValue
deriving DecidableEq

/-- Result of a call into the Google service: a value or a raised exception. -/
inductive GResult (α : Type)
  | ok : α → GResult α
  | raise : String → GResult α
deriving DecidableEq

/-- `form_dict` normalization: empty-string values become "-" (app.py
lines 182-185). -/
def normForm (form : List (String × String)) : List (String × String) :=
  form.map (fun kv => if kv.2 == "" then (kv.1, "-") else kv)

/-- `form_dict.get(key, '-')`. -/
def formGet (form : List (String × String)) (k : String) : String :=
  match form.lookup k with
  | some v => v
  | none => "-"

/-- Python dict assignment `form_dict[k] = v`. -/
def setForm (form : List (String × String)) (k v : String) :
    List (String × String) :=
  (k, v) :: form.filter (fun kv => !(kv.1 == k))

/-- The row appended to the sheet (app.py lines 197-215). -/
def sheetRow (fd : List (String × String)) : List String :=
  [formGet fd "kode_sa", formGet fd "nama", formGet fd "no_telp",
   formGet fd "witel", formGet fd "telda", formGet fd "tanggal",
   formGet fd "kategori", formGet fd "tenant", formGet fd "kegiatan",
   formGet fd "layanan", formGet fd "tarif", formGet fd "nama_pic",
   formGet fd "jabatan_pic", formGet fd "telepon_pic", formGet fd "paket_deal",
   formGet fd "deal_bundling", formGet fd "foto_evidence"]

/-- `if foto_evidence.content_length and foto_evidence.content_length > 16777216`. -/
def contentTooLarge (contentLength : Option Nat) : Bool :=
  match contentLength with
  | some n => 16777216 < n
  | none => false

/-- `POST /api/append-to-sheet` (`drive_then_sheet`, app.py lines 172-224),
after the auth gate.  The Google service calls are parameters carrying their
outcome.  `authenticate`/`build_services` run outside the try block, so their
exceptions propagate; an exception from the upload or the append is caught,
logged, and control falls through to `return app` — the Flask application
object — modelled as `.ok .flaskApp`. -/
def drive_then_sheet (gAuth gBuild : GResult Unit) (gUpload : GResult String)
    (gAppend : GResult Bool) (hasFile : Bool) (contentLength : Option Nat)
    (form : List (String × String)) : Except Exc ViewValue :=
  if !hasFile then .ok (.resp { status := 400, body := .jsonError "image required" })
  else if contentTooLarge contentLength then
    .ok (.resp { status := 413, body := .jsonError "file too large" })
  else
    let fd := normForm form
    match gAuth with
    | .raise m => .error (.pyErr m)
    | .ok _ =>
      match gBuild with
      | .raise m => .error (.pyErr m)
      | .ok _ =>
        match gUpload with
        | .raise _ => .ok .flaskApp
        | .ok link =>
          let fd2 := setForm fd "foto_evidence" link
          match gAppend with
          | .raise _ => .ok .flaskApp
          | .ok success => .ok (.resp { status := 200, body := .jsonRow (sheetRow fd2) success })

/-- One dispatch of `POST /api/append-to-sheet`: the route is wrapped by
`require_session` and its path begins with /api/, so an invalid or absent
session answers 401 JSON; a valid session runs `drive_then_sheet`. -/
def api_append_view (avail : Bool) (r : Redis) (now : Nat)
    (cookie : Option String) (gAuth gBuild : GResult Unit)
    (gUpload : GResult String) (gAppend : GResult Bool) (hasFile : Bool)
    (contentLength : Option Nat) (form : List (String × String)) :
    Except Exc ViewValue :=
  match session_valid avail r now cookie with
  | .error e => .error e
  | .ok false => .ok (.resp { status := 401, body := .jsonError "unauthorized" })
  | .ok true =>
      drive_then_sheet gAuth gBuild gUpload gAppend hasFile contentLength form

/-- Flask's dispatch of this route, response finalization included.  An
uncaught view exception goes to the registered error handler.  A Response
return value is sent as-is.  When the view returns the Flask application
object (the `return app` fallthrough), `make_response` does not raise:
`Response.force_type` treats the callable as a WSGI application and
`run_wsgi_app` invokes it on the current environ, dispatching the same
request a second time.  That second pass re-parses the already-consumed body
stream, so the re-dispatched request carries no files and no form data.  The
re-dispatch cannot return the application object again — with no file the
view answers 400 before reaching the Google calls (see
`api_redispatch_returns_response`) — so one re-entry level suffices and the
final arm is unreachable on this route. -/
def api_wsgi (avail : Bool) (r : Redis) (now : Nat) (cookie : Option String)
    (gAuth gBuild : GResult Unit) (gUpload : GResult String)
    (gAppend : GResult Bool) (hasFile : Bool) (contentLength : Option Nat)
    (form : List (String × String)) : HResponse :=
  match api_append_view avail r now cookie gAuth gBuild gUpload gAppend
      hasFile contentLength form with
  | .error e => on_error e
  | .ok (.resp h) => h
  | .ok .flaskApp =>
      match api_append_view avail r now cookie gAuth gBuild gUpload gAppend
          false none [] with
      | .error e => on_error e
      | .ok (.resp h) => h
      | .ok .flaskApp => on_error (.pyErr "re-entry")

/-- Modelled from the spec: the rate limiter as section 4.2 words it — the
60-second expiry is set only "on the increment that creates the key".  Used
solely for refinement comparison with `rate_limit_login` from the code. -/
def allow_spec (cfg : Config) (r : Redis) (now : Nat) (ip : String) :
    Bool × Redis :=
  let key := rl_key ip
  let ir := r.incr now key
  let r2 := if ir.1 == 1 then (ir.2.expire now key 60).2 else ir.2
  (ir.1 ≤ (cfg.API_RATE_LIMIT : Int), r2)

/-- The live integer count stored under a key (0 when absent), as Redis INCR
would read it. -/
def Redis.countOf (r : Redis) (now : Nat) (k : String) : Int :=
  match r.find now k with
  | some (.int n, _) => n
  | some (.str s, _) => s.toInt?.getD 0
  | none => 0

/-- Run a sequence of login requests at one instant from one address; each
request is a (submitted key, fresh session id) pair.  Returns the list of
response statuses and the final store. -/
def loginSeq (cfg : Config) (r : Redis) (now : Nat) (addr : Option String) :
    List (String × String) → List Nat × Redis
  | [] => ([], r)
  | q :: rest =>
      let step := login cfg r now addr q.1 q.2
      let tail := loginSeq cfg step.2.1 now addr rest
      (step.1.status :: tail.1, tail.2)

/-- Does `pre` begin `s`?  Stated on the underlying character lists. -/
def strHasPre (pre s : String) : Bool := pre.data.isPrefixOf s.data

/-- Well-formedness of the session keyspace: every entry under the `sess:`
namespace has a deadline at most `now + SESSION_TTL_SECONDS`.  Established by
`session_set` and preserved as time advances. -/
def sessionsWF (cfg : Config) (r : Redis) (now : Nat) : Bool :=
  r.data.all (fun e =>
    !(strHasPre SESS_PRE e.1) ||
      (match e.2.2 with
       | some d => d ≤ now + cfg.SESSION_TTL_SECONDS
       | none => false))

/-- Is a key structurally present in the store (live or expired entry)? -/
def Redis.hasKey (r : Redis) (k : String) : Bool :=
  r.data.any (fun e => e.1 == k)

/-- A concrete configuration used to instantiate theorems on closed inputs
(defaults: TTL 1800, HTTPS_COOKIES 0, API_RATE_LIMIT 8). -/
def cfgW : Config := { UNIVERSAL_KEY := some "s3cret" }

/-- Nine login requests from one client: eight with a wrong key, the ninth
with the correct secret. -/
def nineReqs : List (String × String) :=
  [("wrong", "sid1"), ("wrong", "sid2"), ("wrong", "sid3"), ("wrong", "sid4"),
   ("wrong", "sid5"), ("wrong", "sid6"), ("wrong", "sid7"), ("wrong", "sid8"),
   ("s3cret", "sid9")]

deriving instance DecidableEq for Except

/-- Membership and liveness of the entry returned by `Redis.find`. -/
theorem find_mem {r : Redis} {now : Nat} {k : String} {v : RVal} {dl : Option Nat}
    (h : r.find now k = some (v, dl)) :
    (k, v, dl) ∈ r.data ∧ liveAt now dl = true := by
  unfold Redis.find at h
  cases hf : r.data.find? (fun e => e.1 == k && liveAt now e.2.2) with
  | none => rw [hf] at h; cases h
  | some e =>
      rw [hf] at h
      obtain ⟨e1, e2⟩ := e
      simp only [Option.some.injEq] at h
      have hp := List.find?_some hf
      have hm := List.mem_of_find?_eq_some hf
      simp only [Bool.and_eq_true, beq_iff_eq] at hp
      obtain ⟨hk, hl⟩ := hp
      subst h
      subst hk
      exact ⟨hm, hl⟩

/-- A `find?` over a filtered list agrees with `find?` over the original when
the search predicate implies the filter predicate. -/
theorem find?_filter_of_imp {α : Type} (p q : α → Bool) (l : List α)
    (h : ∀ e, p e = true → q e = true) :
    (l.filter q).find? p = l.find? p := by
  rw [List.find?_filter]
  congr 1
  funext a
  cases hp : p a with
  | true => simp [hp, h a hp]
  | false => simp [hp]

/-- Reading back the key just written by `setKey`. -/
theorem find_setKey_self (r : Redis) (now : Nat) (k : String) (v : RVal)
    (dl : Option Nat) :
    (r.setKey k v dl).find now k = if liveAt now dl then some (v, dl) else none := by
  show (match ((k, v, dl) :: r.data.filter (fun e => !(e.1 == k))).find?
          (fun e => e.1 == k && liveAt now e.2.2) with
        | some e => some e.2
        | none => none) = _
  cases hl : liveAt now dl with
  | true =>
      rw [List.find?_cons_of_pos _ (by simp [hl])]
      simp
  | false =>
      rw [List.find?_cons_of_neg _ (by simp [hl])]
      rw [List.find?_eq_none.mpr]
      · simp
      · intro x hx
        have hq := List.mem_filter.mp hx
        simp only [Bool.not_eq_true', beq_eq_false_iff_ne] at hq
        simp [hq.2]

/-- `setKey` does not disturb other keys. -/
theorem find_setKey_other (r : Redis) (now : Nat) (k k2 : String) (v : RVal)
    (dl : Option Nat) (h : k2 ≠ k) :
    (r.setKey k v dl).find now k2 = r.find now k2 := by
  show (match ((k, v, dl) :: r.data.filter (fun e => !(e.1 == k))).find?
          (fun e => e.1 == k2 && liveAt now e.2.2) with
        | some e => some e.2
        | none => none) = r.find now k2
  rw [List.find?_cons_of_neg _ (by simp [Ne.symm h])]
  rw [find?_filter_of_imp]
  · rfl
  · intro e he
    simp only [Bool.and_eq_true, beq_iff_eq] at he
    simp [he.1, h]

/-- Deleting a key removes it. -/
theorem find_del_self (r : Redis) (now : Nat) (k : String) :
    (r.del k).find now k = none := by
  show (match (r.data.filter (fun e => !(e.1 == k))).find?
          (fun e => e.1 == k && liveAt now e.2.2) with
        | some e => some e.2
        | none => none) = none
  rw [List.find?_eq_none.mpr]
  intro x hx
  have hq := List.mem_filter.mp hx
  simp only [Bool.not_eq_true', beq_eq_false_iff_ne] at hq
  simp [hq.2]

/-- Deleting a key does not disturb other keys. -/
theorem find_del_other (r : Redis) (now : Nat) (k k2 : String) (h : k2 ≠ k) :
    (r.del k).find now k2 = r.find now k2 := by
  show (match (r.data.filter (fun e => !(e.1 == k))).find?
          (fun e => e.1 == k2 && liveAt now e.2.2) with
        | some e => some e.2
        | none => none) = r.find now k2
  rw [find?_filter_of_imp]
  · rfl
  · intro e he
    simp only [Bool.and_eq_true, beq_iff_eq] at he
    simp [he.1, h]

/-- `DEL` of a key that is structurally absent leaves the store unchanged. -/
theorem del_of_not_hasKey (r : Redis) (k : String) (h : r.hasKey k = false) :
    r.del k = r := by
  unfold Redis.hasKey at h
  rw [List.any_eq_false] at h
  cases r with
  | mk data =>
      simp only [Redis.del]
      congr 1
      rw [List.filter_eq_self]
      intro e he
      have := h e he
      simp only [Bool.not_eq_true] at this ⊢
      simp [this]

/-- `EXPIRE` does not disturb other keys. -/
theorem find_expire_other (r : Redis) (now : Nat) (k k2 : String) (t : Nat)
    (h : k2 ≠ k) :
    ((r.expire now k t).2).find now k2 = r.find now k2 := by
  unfold Redis.expire
  cases hf : r.find now k with
  | none => rfl
  | some e =>
      obtain ⟨v, dl⟩ := e
      exact find_setKey_other r now k k2 v (some (now + t)) h

/-- `INCR` does not disturb other keys. -/
theorem find_incr_other (r : Redis) (now : Nat) (k k2 : String) (h : k2 ≠ k) :
    ((r.incr now k).2).find now k2 = r.find now k2 := by
  unfold Redis.incr
  cases hf : r.find now k with
  | none => exact find_setKey_other r now k k2 (.int 1) none h
  | some e =>
      obtain ⟨v, dl⟩ := e
      cases v with
      | int n => exact find_setKey_other r now k k2 (.int (n + 1)) dl h
      | str s => exact find_setKey_other r now k k2 (.int (s.toInt?.getD 0 + 1)) dl h

/-- The rate limiter leaves every key other than its counter key unchanged. -/
theorem rate_limit_login_other (cfg : Config) (r : Redis) (now : Nat)
    (ip k2 : String) (h : k2 ≠ rl_key ip) :
    ((rate_limit_login cfg r now ip).2).find now k2 = r.find now k2 := by
  unfold rate_limit_login
  rw [find_expire_other _ _ _ _ _ h, find_incr_other _ _ _ _ h]

/-- After `allow`, the counter key holds the incremented count with a fresh
60-second deadline, and the result is true iff that count is within the
limit. -/
theorem rate_limit_login_state (cfg : Config) (r : Redis) (now : Nat)
    (ip : String) :
    (rate_limit_login cfg r now ip).1
        = decide (r.countOf now (rl_key ip) + 1 ≤ (cfg.API_RATE_LIMIT : Int)) ∧
    ((rate_limit_login cfg r now ip).2).find now (rl_key ip)
        = some (.int (r.countOf now (rl_key ip) + 1), some (now + 60)) := by
  unfold rate_limit_login Redis.countOf
  cases hf : r.find now (rl_key ip) with
  | none =>
      simp only [Redis.incr, hf]
      have h1 : (r.setKey (rl_key ip) (.int 1) none).find now (rl_key ip)
          = some (.int 1, none) := by
        rw [find_setKey_self]; simp [liveAt]
      simp only [Redis.expire, h1]
      constructor
      · norm_num
      · rw [find_setKey_self]
        simp [liveAt]
  | some e =>
      obtain ⟨v, dl⟩ := e
      have hlive := (find_mem hf).2
      cases v with
      | int n =>
          simp only [Redis.incr, hf]
          have h1 : (r.setKey (rl_key ip) (.int (n + 1)) dl).find now (rl_key ip)
              = some (.int (n + 1), dl) := by
            rw [find_setKey_self, hlive]; rfl
          simp only [Redis.expire, h1]
          constructor
          · trivial
          · rw [find_setKey_self]
            simp [liveAt]
      | str s =>
          simp only [Redis.incr, hf]
          have h1 : (r.setKey (rl_key ip) (.int (s.toInt?.getD 0 + 1)) dl).find
              now (rl_key ip) = some (.int (s.toInt?.getD 0 + 1), dl) := by
            rw [find_setKey_self, hlive]; rfl
          simp only [Redis.expire, h1]
          constructor
          · trivial
          · rw [find_setKey_self]
            simp [liveAt]

/-- A well-formed store constrains the deadline of every live session entry. -/
theorem wf_deadline {cfg : Config} {r : Redis} {now : Nat} {s : String}
    {v : RVal} {dl : Option Nat} (hwf : sessionsWF cfg r now = true)
    (hf : r.find now (SESS_PRE ++ s) = some (v, dl)) :
    ∃ d, dl = some d ∧ now < d ∧ d ≤ now + cfg.SESSION_TTL_SECONDS := by
  obtain ⟨hm, hl⟩ := find_mem hf
  unfold sessionsWF at hwf
  rw [List.all_eq_true] at hwf
  have hx := hwf _ hm
  have hpre : strHasPre SESS_PRE (SESS_PRE ++ s) = true := by
    unfold strHasPre
    rw [String.data_append]
    rw [ List.isPrefixOf_iff_prefix]
    exact List.prefix_append _ _
  simp only [hpre, Bool.not_true, Bool.false_or] at hx
  cases dl with
  | none => simp at hx
  | some d =>
      simp only [decide_eq_true_eq] at hx
      refine ⟨d, rfl, ?_, hx⟩
      simpa [liveAt] using hl

/-- A rate-limit counter key is never a session key. -/
theorem rl_key_ne_sess (ip s : String) : rl_key ip ≠ SESS_PRE ++ s := by
  intro h
  have hd := congrArg String.data h
  unfold rl_key RL_PRE SESS_PRE at hd
  rw [String.data_append, String.data_append, String.data_append] at hd
  have hc : 'r' = 's' := by
    have h2 := congrArg (fun l => l.head?) hd
    simp at h2
  cases hc

/-- `session_valid` on a reachable store and a nonempty id reads the key. -/
theorem session_valid_char (r : Redis) (now : Nat) (s : String) (h : s ≠ "") :
    session_valid true r now (some s)
      = .ok ((r.find now (SESS_PRE ++ s)).isSome) := by
  cases hs : (r.find now (SESS_PRE ++ s)).isSome <;>
    simp [session_valid, pyFalsy, h, Redis.existsKey, hs]

/-- C1: for a route wrapped by the auth gate, when the session cookie is
missing or the store reports the session invalid/absent/expired, a request on
an API-prefixed path receives a 401 with the JSON body error=unauthorized and
a page-route request receives a redirect to /login; when the session is valid
the wrapped handler's result is returned unchanged. -/
theorem C1_require_session_gate (handler : Except Exc HResponse) (r : Redis)
    (now : Nat) (path : String) (cookie : Option String) :
    (session_valid true r now cookie = .ok false →
        require_session handler true r now path cookie =
          (if path.startsWith "/api/" then
              .ok { status := 401, body := .jsonError "unauthorized" }
            else .ok (redirectResp "/login"))) ∧
    (session_valid true r now cookie = .ok true →
        require_session handler true r now path cookie = handler) := by
  constructor
  · intro hv
    unfold require_session
    rw [hv]
  · intro hv
    unfold require_session
    rw [hv]

/-- Witness for C1: no cookie on an API path (401 JSON) and on a page path
(redirect to /login); a valid session returns the handler's result. -/
theorem C1_require_session_gate_witness :
    (session_valid true Redis.empty 0 none = .ok false) ∧
    (require_session (.ok loadingPageResp) true Redis.empty 0
        "/api/append-to-sheet" none =
      (if "/api/append-to-sheet".startsWith "/api/" then
          .ok { status := 401, body := .jsonError "unauthorized" }
        else .ok (redirectResp "/login"))) ∧
    (require_session (.ok loadingPageResp) true Redis.empty 0 "/form" none =
      (if "/form".startsWith "/api/" then
          .ok { status := 401, body := .jsonError "unauthorized" }
        else .ok (redirectResp "/login"))) ∧
    (session_valid true (session_set cfgW Redis.empty 0 "abc") 0 (some "abc")
        = .ok true) ∧
    (require_session (.ok loadingPageResp) true
        (session_set cfgW Redis.empty 0 "abc") 0 "/form" (some "abc")
      = .ok loadingPageResp) :=
  ⟨by decide,
   (C1_require_session_gate (.ok loadingPageResp) Redis.empty 0
      "/api/append-to-sheet" none).1 (by decide),
   (C1_require_session_gate (.ok loadingPageResp) Redis.empty 0
      "/form" none).1 (by decide),
   by decide,
   (C1_require_session_gate (.ok loadingPageResp)
      (session_set cfgW Redis.empty 0 "abc") 0 "/form" (some "abc")).2
      (by decide)⟩

/-- C2 counterexample: two calls for the same client at times 0 and 30.  The
code (rate_limit_login) issues EXPIRE on every increment, so after the second
(non-creating) increment the counter's remaining ttl at t=30 is a full 60
seconds; a limiter that sets the 60-second expiry exactly on the increment
that creates the key (allow_spec, the claim's wording) leaves remaining
ttl 30.  So the expiry is not set only on the creating increment. -/
theorem C2_rate_limit_counterexample :
    (Redis.ttl (rate_limit_login cfgW
        (rate_limit_login cfgW Redis.empty 0 "1.2.3.4").2 30 "1.2.3.4").2
      30 (rl_key "1.2.3.4") = 60) ∧
    (Redis.ttl (allow_spec cfgW
        (allow_spec cfgW Redis.empty 0 "1.2.3.4").2 30 "1.2.3.4").2
      30 (rl_key "1.2.3.4") = 30) ∧
    (60 : Int) ≠ 30 := by decide

/-- C2 (amended): allow(clientKey) atomically increments the per-key counter,
refreshes the 60-second window expiry on every increment (not only on the one
that creates the key), leaves all other keys unchanged, and returns true iff
the post-increment count is at most the configured limit. -/
theorem C2_rate_limit_amended (cfg : Config) (r : Redis) (now : Nat)
    (ip k2 : String) (h2 : k2 ≠ rl_key ip) :
    (rate_limit_login cfg r now ip).1
        = decide (r.countOf now (rl_key ip) + 1 ≤ (cfg.API_RATE_LIMIT : Int)) ∧
    ((rate_limit_login cfg r now ip).2).find now (rl_key ip)
        = some (.int (r.countOf now (rl_key ip) + 1), some (now + 60)) ∧
    ((rate_limit_login cfg r now ip).2).find now k2 = r.find now k2 :=
  ⟨(rate_limit_login_state cfg r now ip).1,
   (rate_limit_login_state cfg r now ip).2,
   rate_limit_login_other cfg r now ip k2 h2⟩

/-- Witness for C2 (amended) on a store already holding count 3. -/
theorem C2_rate_limit_amended_witness :
    ("other" ≠ rl_key "7.7.7.7") ∧
    ((rate_limit_login cfgW (Redis.empty.setKey (rl_key "7.7.7.7") (.int 3)
        (some 50)) 10 "7.7.7.7").1
      = decide ((Redis.empty.setKey (rl_key "7.7.7.7") (.int 3)
          (some 50)).countOf 10 (rl_key "7.7.7.7") + 1
            ≤ (cfgW.API_RATE_LIMIT : Int))) ∧
    ((rate_limit_login cfgW (Redis.empty.setKey (rl_key "7.7.7.7") (.int 3)
        (some 50)) 10 "7.7.7.7").2).find 10 (rl_key "7.7.7.7")
      = some (.int ((Redis.empty.setKey (rl_key "7.7.7.7") (.int 3)
          (some 50)).countOf 10 (rl_key "7.7.7.7") + 1), some (10 + 60)) ∧
    ((rate_limit_login cfgW (Redis.empty.setKey (rl_key "7.7.7.7") (.int 3)
        (some 50)) 10 "7.7.7.7").2).find 10 "other"
      = (Redis.empty.setKey (rl_key "7.7.7.7") (.int 3) (some 50)).find
          10 "other" := by
  refine ⟨by decide, ?_⟩
  exact C2_rate_limit_amended cfgW
    (Redis.empty.setKey (rl_key "7.7.7.7") (.int 3) (some 50)) 10 "7.7.7.7"
    "other" (by decide)

/-- C3: when a client's window counter is over the configured limit, the next
login request is rejected with 429, sets no cookie, and changes nothing in
the store beyond the rate counter — even when the request carries the correct
secret.  With the default limit 8, nine same-window posts (eight wrong keys,
then the correct secret) yield statuses 401 ×8 then 429, and no session
exists afterwards; a successful login also increments the counter. -/
theorem C3_login_rate_limit (cfg : Config) (r : Redis) (now : Nat)
    (addr : Option String) (key sid : String) (k2 : String)
    (hblock : (rate_limit_login cfg r now (pyOrUnknown addr)).1 = false)
    (h2 : k2 ≠ rl_key (pyOrUnknown addr)) :
    ((login cfg r now addr key sid).1.status = 429 ∧
     (login cfg r now addr key sid).1.cookies = [] ∧
     (login cfg r now addr key sid).2.1.find now k2 = r.find now k2) ∧
    ((loginSeq cfgW Redis.empty 0 (some "9.9.9.9") nineReqs).1
        = [401, 401, 401, 401, 401, 401, 401, 401, 429] ∧
     ((loginSeq cfgW Redis.empty 0 (some "9.9.9.9") nineReqs).2).find 0
        (SESS_PRE ++ "sid9") = none) ∧
    ((login cfgW Redis.empty 0 (some "8.8.8.8") "s3cret" "sidX").2.1).countOf 0
        (rl_key "8.8.8.8") = 1 := by
  have hL : login cfg r now addr key sid
      = ({ status := 429,
           body := .text "Terlalu banyak percobaan gagal. Coba lagi setelah sesaat." },
         (rate_limit_login cfg r now (pyOrUnknown addr)).2, 0) := by
    simp only [login, hblock]
    rfl
  refine ⟨⟨by rw [hL], by rw [hL], ?_⟩, by decide, by decide⟩
  rw [hL]
  exact rate_limit_login_other cfg r now (pyOrUnknown addr) k2 h2

/-- Witness for C3: a store whose counter already reads 8 (the default
limit), a correct-secret request; hypotheses discharged at the input. -/
theorem C3_login_rate_limit_witness :
    ((rate_limit_login cfgW (Redis.empty.setKey (rl_key "1.1.1.1") (.int 8)
        (some 50)) 0 (pyOrUnknown (some "1.1.1.1"))).1 = false) ∧
    ("sess:other" ≠ rl_key (pyOrUnknown (some "1.1.1.1"))) ∧
    ((login cfgW (Redis.empty.setKey (rl_key "1.1.1.1") (.int 8) (some 50)) 0
        (some "1.1.1.1") "s3cret" "sidZ").1.status = 429 ∧
     (login cfgW (Redis.empty.setKey (rl_key "1.1.1.1") (.int 8) (some 50)) 0
        (some "1.1.1.1") "s3cret" "sidZ").1.cookies = [] ∧
     (login cfgW (Redis.empty.setKey (rl_key "1.1.1.1") (.int 8) (some 50)) 0
        (some "1.1.1.1") "s3cret" "sidZ").2.1.find 0 "sess:other"
       = (Redis.empty.setKey (rl_key "1.1.1.1") (.int 8) (some 50)).find 0
           "sess:other") := by
  refine ⟨by decide, by decide, ?_⟩
  exact (C3_login_rate_limit cfgW
    (Redis.empty.setKey (rl_key "1.1.1.1") (.int 8) (some 50)) 0
    (some "1.1.1.1") "s3cret" "sidZ" "sess:other" (by decide) (by decide)).1

/-- C4: a login with the correct secret that is not rate-limited stores
exactly one new session under the submitted id with the configured TTL,
leaves every other key unchanged, sets exactly one auth_session cookie that
is httpOnly, SameSite=Lax, path /, max-age equal to the session TTL and
secure iff HTTPS_COOKIES is 1, and responds 302 redirecting to the root. -/
theorem C4_login_success (cfg : Config) (r : Redis) (now : Nat)
    (addr : Option String) (key sid k2 : String)
    (hallow : (rate_limit_login cfg r now (pyOrUnknown addr)).1 = true)
    (hkey : consttime_eq key (cfg.UNIVERSAL_KEY.getD "") = true)
    (httl : 0 < cfg.SESSION_TTL_SECONDS)
    (h2 : k2 ≠ SESS_PRE ++ sid) (h3 : k2 ≠ rl_key (pyOrUnknown addr)) :
    (login cfg r now addr key sid).1
        = { status := 302, body := .redirectHtml, location := some "/",
            cookies := [{ name := "auth_session", value := sid,
                          maxAge := cfg.SESSION_TTL_SECONDS, httponly := true,
                          samesite := "Lax", secure := cfg.HTTPS_COOKIES == 1,
                          path := "/" }] } ∧
    (login cfg r now addr key sid).2.2 = 0 ∧
    (login cfg r now addr key sid).2.1.find now (SESS_PRE ++ sid)
        = some (.str "1", some (now + cfg.SESSION_TTL_SECONDS)) ∧
    (login cfg r now addr key sid).2.1.find now k2 = r.find now k2 := by
  have hL : login cfg r now addr key sid
      = ({ redirectResp "/" with cookies := [mkSessionCookie cfg sid] },
         session_set cfg (rate_limit_login cfg r now (pyOrUnknown addr)).2 now sid,
         0) := by
    simp only [login, hallow, hkey]
    rfl
  have hlt : liveAt now (some (now + cfg.SESSION_TTL_SECONDS)) = true := by
    simp only [liveAt, decide_eq_true_eq]
    omega
  refine ⟨by rw [hL]; rfl, by rw [hL], ?_, ?_⟩
  · rw [hL]
    show (session_set cfg (rate_limit_login cfg r now (pyOrUnknown addr)).2
        now sid).find now (SESS_PRE ++ sid) = _
    unfold session_set Redis.setex
    rw [find_setKey_self, hlt]
    rfl
  · rw [hL]
    show (session_set cfg (rate_limit_login cfg r now (pyOrUnknown addr)).2
        now sid).find now k2 = r.find now k2
    unfold session_set Redis.setex
    rw [find_setKey_other _ _ _ _ _ _ h2]
    exact rate_limit_login_other cfg r now (pyOrUnknown addr) k2 h3

/-- Witness for C4: a correct-secret login on a fresh store. -/
theorem C4_login_success_witness :
    ((rate_limit_login cfgW Redis.empty 0 (pyOrUnknown (some "2.2.2.2"))).1
        = true) ∧
    (consttime_eq "s3cret" (cfgW.UNIVERSAL_KEY.getD "") = true) ∧
    (0 < cfgW.SESSION_TTL_SECONDS) ∧
    ((login cfgW Redis.empty 0 (some "2.2.2.2") "s3cret" "newsid").1
        = { status := 302, body := .redirectHtml, location := some "/",
            cookies := [{ name := "auth_session", value := "newsid",
                          maxAge := cfgW.SESSION_TTL_SECONDS, httponly := true,
                          samesite := "Lax", secure := cfgW.HTTPS_COOKIES == 1,
                          path := "/" }] } ∧
     (login cfgW Redis.empty 0 (some "2.2.2.2") "s3cret" "newsid").2.2 = 0 ∧
     (login cfgW Redis.empty 0 (some "2.2.2.2") "s3cret" "newsid").2.1.find 0
        (SESS_PRE ++ "newsid")
       = some (.str "1", some (0 + cfgW.SESSION_TTL_SECONDS)) ∧
     (login cfgW Redis.empty 0 (some "2.2.2.2") "s3cret" "newsid").2.1.find 0
        "sess:other" = Redis.empty.find 0 "sess:other") := by
  refine ⟨by decide, by decide, by decide, ?_⟩
  exact C4_login_success cfgW Redis.empty 0 (some "2.2.2.2") "s3cret" "newsid"
    "sess:other" (by decide) (by decide) (by decide) (by decide) (by decide)

/-- C5: a login with an incorrect secret that is not rate-limited creates no
session and sets no cookie: beyond its own rate counter the store is
unchanged, the handler sleeps 400 milliseconds (hence every failed credential
attempt incurs at least 400 ms latency) and returns 401 with the localized
error message. -/
theorem C5_login_bad_key (cfg : Config) (r : Redis) (now : Nat)
    (addr : Option String) (key sid k2 : String)
    (hallow : (rate_limit_login cfg r now (pyOrUnknown addr)).1 = true)
    (hbad : consttime_eq key (cfg.UNIVERSAL_KEY.getD "") = false)
    (h3 : k2 ≠ rl_key (pyOrUnknown addr)) :
    (login cfg r now addr key sid).1
        = { status := 401, body := .text "Kode akses salah." } ∧
    (login cfg r now addr key sid).1.cookies = [] ∧
    (login cfg r now addr key sid).2.2 = 400 ∧
    400 ≤ (login cfg r now addr key sid).2.2 ∧
    (login cfg r now addr key sid).2.1.find now k2 = r.find now k2 := by
  have hL : login cfg r now addr key sid
      = ({ status := 401, body := .text "Kode akses salah." },
         (rate_limit_login cfg r now (pyOrUnknown addr)).2, 400) := by
    simp only [login, hallow, hbad]
    rfl
  refine ⟨by rw [hL], by rw [hL], by rw [hL], by rw [hL], ?_⟩
  rw [hL]
  exact rate_limit_login_other cfg r now (pyOrUnknown addr) k2 h3

/-- Witness for C5: a wrong-secret login on a fresh store. -/
theorem C5_login_bad_key_witness :
    ((rate_limit_login cfgW Redis.empty 0 (pyOrUnknown (some "3.3.3.3"))).1
        = true) ∧
    (consttime_eq "wrong" (cfgW.UNIVERSAL_KEY.getD "") = false) ∧
    ((login cfgW Redis.empty 0 (some "3.3.3.3") "wrong" "sidQ").1
        = { status := 401, body := .text "Kode akses salah." } ∧
     (login cfgW Redis.empty 0 (some "3.3.3.3") "wrong" "sidQ").1.cookies = [] ∧
     (login cfgW Redis.empty 0 (some "3.3.3.3") "wrong" "sidQ").2.2 = 400 ∧
     400 ≤ (login cfgW Redis.empty 0 (some "3.3.3.3") "wrong" "sidQ").2.2 ∧
     (login cfgW Redis.empty 0 (some "3.3.3.3") "wrong" "sidQ").2.1.find 0
        "sess:any" = Redis.empty.find 0 "sess:any") := by
  refine ⟨by decide, by decide, ?_⟩
  exact C5_login_bad_key cfgW Redis.empty 0 (some "3.3.3.3") "wrong" "sidQ"
    "sess:any" (by decide) (by decide) (by decide)

/-- C6: logout always responds with a redirect to root carrying exactly the
cleared cookie; running it again right afterwards with no cookie, an empty
cookie, or a cookie whose session is gone returns the same response and
leaves the store untouched; and the underlying session delete is a no-op
when the id is absent from the store. -/
theorem C6_logout_idempotent (r r3 : Redis) (cookie cookie2 : Option String)
    (s2 sid3 : String) :
    (logout r cookie).1
        = { status := 302, body := .redirectHtml, location := some "/",
            cookies := [clearedSessionCookie] } ∧
    ((cookie2 = none ∨ cookie2 = some "" ∨
        (cookie2 = some s2 ∧
          ((logout r cookie).2).hasKey (SESS_PRE ++ s2) = false)) →
      logout (logout r cookie).2 cookie2
        = ((logout r cookie).1, (logout r cookie).2)) ∧
    (r3.hasKey (SESS_PRE ++ sid3) = false → session_delete r3 sid3 = r3) := by
  refine ⟨rfl, ?_, ?_⟩
  · intro h
    rcases h with h | h | ⟨h, hk⟩
    · subst h; rfl
    · subst h; rfl
    · subst h
      by_cases hs : s2 = ""
      · subst hs; rfl
      · have hfal : pyFalsy (some s2) = false := by simp [pyFalsy, hs]
        generalize hX : (logout r cookie).2 = X at hk ⊢
        have hdel : session_delete X s2 = X := by
          unfold session_delete
          rw [if_neg (by simp [hs])]
          exact del_of_not_hasKey _ _ hk
        simp only [logout, hfal, Bool.false_eq_true, if_false,
          Option.getD_some, hdel]
  · intro hk
    unfold session_delete
    by_cases hs : sid3 = ""
    · simp [hs]
    · rw [if_neg (by simp [hs])]
      exact del_of_not_hasKey _ _ hk

/-- Witness for C6: create one session, log out, log out again with the now
stale cookie; delete an absent id on the empty store. -/
theorem C6_logout_idempotent_witness :
    ((logout (session_set cfgW Redis.empty 0 "abc") (some "abc")).1
        = { status := 302, body := .redirectHtml, location := some "/",
            cookies := [clearedSessionCookie] }) ∧
    (logout (logout (session_set cfgW Redis.empty 0 "abc") (some "abc")).2
        (some "abc")
      = ((logout (session_set cfgW Redis.empty 0 "abc") (some "abc")).1,
         (logout (session_set cfgW Redis.empty 0 "abc") (some "abc")).2)) ∧
    session_delete Redis.empty "zzz" = Redis.empty := by
  have h := C6_logout_idempotent (session_set cfgW Redis.empty 0 "abc")
    Redis.empty (some "abc") (some "abc") "abc" "zzz"
  exact ⟨h.1, h.2.1 (Or.inr (Or.inr ⟨rfl, by decide⟩)), h.2.2 (by decide)⟩

/-- C7: when the store is unreachable while a request presents a session
cookie, the raised store exception propagates and the top-level handler turns
it into a generic JSON 500 — not a 401 and not a redirect; and every non-HTTP
exception, whatever its message, becomes the same generic JSON 500 body, so
no internal message reaches the client. -/
theorem C7_store_unreachable_500 (handler : Except Exc HResponse) (r : Redis)
    (now : Nat) (path : String) (s msg : String) (hs : s ≠ "") :
    wsgi_app (require_session handler false r now path (some s))
        = { status := 500, body := .jsonError "internal server error" } ∧
    (wsgi_app (require_session handler false r now path (some s))).status
        ≠ 401 ∧
    (wsgi_app (require_session handler false r now path (some s))).location
        = none ∧
    on_error (.pyErr msg)
        = { status := 500, body := .jsonError "internal server error" } := by
  have hval : session_valid false r now (some s) = .error storeDown := by
    unfold session_valid
    rw [if_neg (by simp [pyFalsy, hs])]
    rfl
  have hreq : require_session handler false r now path (some s)
      = .error storeDown := by
    unfold require_session
    rw [hval]
  refine ⟨by rw [hreq]; rfl, by rw [hreq]; simp [wsgi_app, on_error, storeDown],
    by rw [hreq]; rfl, rfl⟩

/-- Witness for C7 with a concrete cookie and exception message. -/
theorem C7_store_unreachable_500_witness :
    ("tok" ≠ "") ∧
    (wsgi_app (require_session (.ok loadingPageResp) false Redis.empty 0
        "/form" (some "tok"))
      = { status := 500, body := .jsonError "internal server error" } ∧
    (wsgi_app (require_session (.ok loadingPageResp) false Redis.empty 0
        "/form" (some "tok"))).status ≠ 401 ∧
    (wsgi_app (require_session (.ok loadingPageResp) false Redis.empty 0
        "/form" (some "tok"))).location = none ∧
    on_error (.pyErr "boom")
      = { status := 500, body := .jsonError "internal server error" }) := by
  refine ⟨by decide, ?_⟩
  exact C7_store_unreachable_500 (.ok loadingPageResp) Redis.empty 0 "/form"
    "tok" "boom" (by decide)

/-- C8 counterexample: an auth_session cookie that is present but empty.  The
claim says any present cookie gets the loading page; the code's truthiness
test serves the login page for the empty value. -/
theorem C8_root_decider_counterexample :
    root_decider (some "") = loginPageResp ∧
    root_decider (some "") ≠ loadingPageResp := by decide

/-- C8 (amended): GET / serves the login page when the cookie is absent or
empty, and serves the loading page for any nonempty cookie — valid or expired
alike; the decision is a pure function of the cookie, never reading the
store. -/
theorem C8_root_decider_amended (s : String) (hs : s ≠ "") :
    root_decider none = loginPageResp ∧
    root_decider (some "") = loginPageResp ∧
    root_decider (some s) = loadingPageResp := by
  refine ⟨rfl, rfl, ?_⟩
  unfold root_decider
  rw [if_neg (by simp [pyFalsy, hs])]

/-- Witness for C8 (amended) at a concrete nonempty cookie. -/
theorem C8_root_decider_amended_witness :
    ("tok9" ≠ "") ∧
    (root_decider none = loginPageResp ∧
     root_decider (some "") = loginPageResp ∧
     root_decider (some "tok9") = loadingPageResp) :=
  ⟨by decide, C8_root_decider_amended "tok9" (by decide)⟩

/-- C9: /auth/check returns 401 with ok=false when the cookie is empty or
absent — without touching the store, even an unreachable one — and when the
store reports the session invalid; when the session is valid on a well-formed
store it returns 200 with ok=true and a remaining ttl that is positive and at
most the configured session TTL. -/
theorem C9_auth_check (cfg : Config) (r : Redis) (now : Nat)
    (cookie : Option String) (avail : Bool) :
    (pyFalsy cookie = true →
        auth_check avail r now cookie
          = .ok { status := 401, body := .jsonNotOk }) ∧
    (session_valid true r now cookie = .ok false →
        auth_check true r now cookie
          = .ok { status := 401, body := .jsonNotOk }) ∧
    (session_valid true r now cookie = .ok true → sessionsWF cfg r now = true →
        ∃ t : Int, auth_check true r now cookie
            = .ok { status := 200, body := .jsonOkTtl t } ∧
          0 < t ∧ t ≤ (cfg.SESSION_TTL_SECONDS : Int)) := by
  refine ⟨?_, ?_, ?_⟩
  · intro hf
    have hval : session_valid avail r now cookie = .ok false := by
      unfold session_valid
      rw [if_pos hf]
    unfold auth_check
    rw [hval]
  · intro hv
    unfold auth_check
    rw [hv]
  · intro hv hwf
    cases hp : pyFalsy cookie with
    | true =>
        have hval : session_valid true r now cookie = .ok false := by
          unfold session_valid
          rw [if_pos hp]
        rw [hval] at hv
        simp at hv
    | false =>
        cases cookie with
        | none => simp [pyFalsy] at hp
        | some s =>
            have hs : s ≠ "" := by simpa [pyFalsy] using hp
            rw [session_valid_char r now s hs] at hv
            have hsome : (r.find now (SESS_PRE ++ s)).isSome = true := by
              simpa using hv
            obtain ⟨⟨v, dl⟩, hfind⟩ := Option.isSome_iff_exists.mp hsome
            obtain ⟨d, rfl, hlt, hle⟩ := wf_deadline hwf hfind
            refine ⟨(d : Int) - now, ?_, by omega, by omega⟩
            have httl : session_ttl true r now (some s)
                = .ok ((d : Int) - now) := by
              unfold session_ttl
              rw [if_neg (by simp [pyFalsy, hs])]
              rw [if_pos rfl]
              simp only [Option.getD_some]
              unfold Redis.ttl
              rw [hfind]
            unfold auth_check
            rw [session_valid_char r now s hs, hsome, httl]

/-- Witness for C9: a store holding one session created at time 0 with the
default TTL, probed at time 5 with an absent cookie (store down), a stale
cookie, and the valid cookie. -/
theorem C9_auth_check_witness :
    (pyFalsy (none : Option String) = true) ∧
    (auth_check false (session_set cfgW Redis.empty 0 "abc") 5 none
        = .ok { status := 401, body := .jsonNotOk }) ∧
    (session_valid true (session_set cfgW Redis.empty 0 "abc") 5 (some "zz")
        = .ok false) ∧
    (auth_check true (session_set cfgW Redis.empty 0 "abc") 5 (some "zz")
        = .ok { status := 401, body := .jsonNotOk }) ∧
    (session_valid true (session_set cfgW Redis.empty 0 "abc") 5 (some "abc")
        = .ok true) ∧
    (sessionsWF cfgW (session_set cfgW Redis.empty 0 "abc") 5 = true) ∧
    (auth_check true (session_set cfgW Redis.empty 0 "abc") 5 (some "abc")
        = .ok { status := 200, body := .jsonOkTtl 1795 } ∧
      (0 : Int) < 1795 ∧ (1795 : Int) ≤ (cfgW.SESSION_TTL_SECONDS : Int)) := by
  refine ⟨by decide, ?_, by decide, ?_, by decide, by decide, ?_⟩
  · exact (C9_auth_check cfgW (session_set cfgW Redis.empty 0 "abc") 5 none
      false).1 (by decide)
  · exact (C9_auth_check cfgW (session_set cfgW Redis.empty 0 "abc") 5
      (some "zz") false).2.1 (by decide)
  · obtain ⟨t, ht, hpos, hle⟩ := (C9_auth_check cfgW
      (session_set cfgW Redis.empty 0 "abc") 5 (some "abc") false).2.2
      (by decide) (by decide)
    exact ⟨by decide, by decide, by decide⟩


/-- The re-dispatched request — its body stream already consumed, hence no
files and no form — always gets a response: the application object cannot be
returned a second time on this route. -/
theorem api_redispatch_returns_response (avail : Bool) (r : Redis) (now : Nat)
    (cookie : Option String) (gAuth gBuild : GResult Unit)
    (gUpload : GResult String) (gAppend : GResult Bool) (cl : Option Nat) :
    api_append_view avail r now cookie gAuth gBuild gUpload gAppend false cl []
      ≠ .ok .flaskApp := by
  unfold api_append_view
  cases hsv : session_valid avail r now cookie with
  | error e => simp
  | ok b =>
      cases b with
      | false => simp
      | true =>
          unfold drive_then_sheet
          simp

/-- C10 counterexample: with a valid session and the Drive upload raising,
the view does fall through to returning the application object, but the
response the dispatch delivers is the re-dispatch's 400 image-required JSON
error — not a 500 and not the top-level handler's generic JSON body, because
Flask finalizes a callable return by running it as a WSGI application rather
than raising. -/
theorem C10_api_fallthrough_counterexample :
    (api_append_view true (session_set cfgW Redis.empty 0 "abc") 0 (some "abc")
        (.ok ()) (.ok ()) (.raise "drive down") (.ok true) true (some 1000)
        [("kode_sa", "K1")] = .ok .flaskApp) ∧
    (api_wsgi true (session_set cfgW Redis.empty 0 "abc") 0 (some "abc")
        (.ok ()) (.ok ()) (.raise "drive down") (.ok true) true (some 1000)
        [("kode_sa", "K1")]
      = { status := 400, body := .jsonError "image required" }) ∧
    ((api_wsgi true (session_set cfgW Redis.empty 0 "abc") 0 (some "abc")
        (.ok ()) (.ok ()) (.raise "drive down") (.ok true) true (some 1000)
        [("kode_sa", "K1")]).status ≠ 500) ∧
    ((api_wsgi true (session_set cfgW Redis.empty 0 "abc") 0 (some "abc")
        (.ok ()) (.ok ()) (.raise "drive down") (.ok true) true (some 1000)
        [("kode_sa", "K1")]).body ≠ .jsonError "internal server error") := by
  decide

/-- C10 (amended): in POST /api/append-to-sheet with a valid session and an
acceptable upload, an exception raised by the Drive upload or by the sheet
append is caught and the handler falls through to `return app` — the Flask
application object, not an HTTP response.  Flask's response finalization
treats the callable as a WSGI application and invokes it on the same environ,
re-dispatching the request against the already-consumed body stream; the
client therefore receives the re-dispatch's 400 image-required JSON error —
never the row/status payload, and not a 500. -/
theorem C10_api_fallthrough (r : Redis) (now : Nat) (cookie : Option String)
    (m m2 link : String) (gUpload : GResult String) (gAppend : GResult Bool)
    (contentLength : Option Nat) (form : List (String × String))
    (row : List String) (success : Bool)
    (hval : session_valid true r now cookie = .ok true)
    (hcl : contentTooLarge contentLength = false)
    (hg : gUpload = .raise m ∨ (gUpload = .ok link ∧ gAppend = .raise m2)) :
    api_append_view true r now cookie (.ok ()) (.ok ()) gUpload gAppend true
        contentLength form = .ok .flaskApp ∧
    api_wsgi true r now cookie (.ok ()) (.ok ()) gUpload gAppend true
        contentLength form
      = { status := 400, body := .jsonError "image required" } ∧
    api_wsgi true r now cookie (.ok ()) (.ok ()) gUpload gAppend true
        contentLength form
      ≠ { status := 200, body := .jsonRow row success } ∧
    (api_wsgi true r now cookie (.ok ()) (.ok ()) gUpload gAppend true
        contentLength form).status ≠ 500 := by
  have hview : api_append_view true r now cookie (.ok ()) (.ok ()) gUpload
      gAppend true contentLength form = .ok .flaskApp := by
    unfold api_append_view
    rw [hval]
    unfold drive_then_sheet
    rw [if_neg (by simp), if_neg (by simp [hcl])]
    rcases hg with hg | ⟨hg1, hg2⟩
    · rw [hg]
    · rw [hg1, hg2]
  have hre : api_append_view true r now cookie (.ok ()) (.ok ()) gUpload
      gAppend false none []
      = .ok (.resp { status := 400, body := .jsonError "image required" }) := by
    unfold api_append_view
    rw [hval]
    rfl
  have hw : api_wsgi true r now cookie (.ok ()) (.ok ()) gUpload gAppend true
      contentLength form
      = { status := 400, body := .jsonError "image required" } := by
    unfold api_wsgi
    rw [hview, hre]
  exact ⟨hview, hw, by rw [hw]; simp, by rw [hw]; simp⟩

/-- Witness for C10 (amended): valid session, Drive upload raising. -/
theorem C10_api_fallthrough_witness :
    (session_valid true (session_set cfgW Redis.empty 0 "abc") 0 (some "abc")
        = .ok true) ∧
    (contentTooLarge (some 1000) = false) ∧
    (api_append_view true (session_set cfgW Redis.empty 0 "abc") 0 (some "abc")
        (.ok ()) (.ok ()) (.raise "drive down") (.ok true) true (some 1000)
        [("kode_sa", "K1")] = .ok .flaskApp ∧
     api_wsgi true (session_set cfgW Redis.empty 0 "abc") 0 (some "abc")
        (.ok ()) (.ok ()) (.raise "drive down") (.ok true) true (some 1000)
        [("kode_sa", "K1")]
       = { status := 400, body := .jsonError "image required" } ∧
     api_wsgi true (session_set cfgW Redis.empty 0 "abc") 0 (some "abc")
        (.ok ()) (.ok ()) (.raise "drive down") (.ok true) true (some 1000)
        [("kode_sa", "K1")]
       ≠ { status := 200, body := .jsonRow ["K1"] true } ∧
     (api_wsgi true (session_set cfgW Redis.empty 0 "abc") 0 (some "abc")
        (.ok ()) (.ok ()) (.raise "drive down") (.ok true) true (some 1000)
        [("kode_sa", "K1")]).status ≠ 500) := by
  refine ⟨by decide, by decide, ?_⟩
  exact C10_api_fallthrough (session_set cfgW Redis.empty 0 "abc") 0
    (some "abc") "drive down" "x" "y" (.raise "drive down") (.ok true)
    (some 1000) [("kode_sa", "K1")] ["K1"] true (by decide) (by decide)
    (Or.inl rfl)
